import Mathlib

/-!
Shallow embedding of `hazelcast/invocation.py`: the `Future` result container,
the `Invocation` request record, and the `InvocationService` orchestrator
(routing, send, receive dispatch, failure classification, retry, teardown).

Python objects become Lean structures; in-place mutation becomes explicit
state passing; `time.time()` becomes an explicit `now : Nat` parameter;
raising becomes `Except`.  The `pending` and `listeners` dicts become
association lists over `Nat` correlation ids.
-/

namespace Hazelcast

/-- Connections and addresses are identified abstractly by number. -/
abbrev Conn := Nat

abbrev Addr := Nat

/-- Errors that can resolve a future.  `ioError` is Python's `IOError`
(transport failure), `instanceNotActive` is `HazelcastInstanceNotActiveError`,
`timeoutError` is the client's `TimeoutError`, and `remote r c` is a decoded
remote protocol error whose catalog retryability flag is `r`. -/
inductive HzError where
  | ioError (msg : String)
  | instanceNotActive
  | timeoutError (msg : String)
  | remote (retryable : Bool) (code : Nat)
deriving Repr, DecidableEq

/-- Test from `handle_exception`: `isinstance(error, (IOError,
HazelcastInstanceNotActiveError))` — transport failure or instance inactive. -/
def isTransportError : HzError → Bool
  | .ioError _ => true
  | .instanceNotActive => true
  | _ => false

/-- Modelled from the spec: `hazelcast.exception.is_retryable_error` (the
module is not under src/) consults the protocol's error catalog; decoded
remote errors carry their catalog retryability flag, and the plain client-side
errors above are not in the catalog. -/
def is_retryable_error : HzError → Bool
  | .remote r _ => r
  | _ => false

/-- Predicate distinguishing the client's `TimeoutError` from other errors. -/
def isTimeoutError : HzError → Bool
  | .timeoutError _ => true
  | _ => false

/-- Wire message (both the outbound request and inbound responses/events):
correlation id and partition id are settable, `is_event` models
`has_flags(LISTENER_FLAG)`, `message_type` discriminates exception responses,
`encoded_error` is the payload `ErrorCodec` decodes when the type is
`EXCEPTION_MESSAGE_TYPE`, and `is_retryable` is the request's idempotency
marker (`request.is_retryable()`). -/
structure Message where
  correlation_id : Nat
  partition_id : Int
  is_event : Bool
  message_type : Nat
  encoded_error : HzError
  is_retryable : Bool
deriving Repr, DecidableEq

/-- Constant from `hazelcast.protocol.custom_codec`: the message type tag of
an encoded remote exception. -/
def EXCEPTION_MESSAGE_TYPE : Nat := 109

/-- Modelled from the spec: `create_exception(ErrorCodec(message))` (codec
module not under src/) decodes the wire payload into a structured error. -/
def create_exception (m : Message) : HzError := m.encoded_error

/-! ## Future

`Future` holds `_result` and `_exception` (both default `None`) and a
`threading.Event`.  `set_result` / `set_exception` store unconditionally and
set the event; `result()` waits for the event, raises the stored exception
if one is set, else returns the stored result.  The callback list is
modelled at its point of use (`continue_with`). -/

structure FutureState (α : Type) where
  res : Option α
  exc : Option HzError
  eventSet : Bool
deriving Repr, DecidableEq

namespace FutureState

/-- A freshly constructed `Future()`: nothing stored, event not set. -/
def init {α : Type} : FutureState α := ⟨none, none, false⟩

/-- `Future.set_result`: stores the result and sets the completion event,
with no guard against an earlier resolution. -/
def set_result {α : Type} (f : FutureState α) (v : α) : FutureState α :=
  { f with res := some v, eventSet := true }

/-- `Future.set_exception`: stores the exception and sets the completion
event, with no guard against an earlier resolution. -/
def set_exception {α : Type} (f : FutureState α) (e : HzError) : FutureState α :=
  { f with exc := some e, eventSet := true }

/-- `Future.result()` after the event is set: raises the stored exception if
any, else returns the stored result (`None` if never assigned). -/
def resultOf {α : Type} (f : FutureState α) : Except HzError (Option α) :=
  match f.exc with
  | some e => .error e
  | none => .ok f.res

/-- `Future.done()`: whether the completion event is set. -/
def done {α : Type} (f : FutureState α) : Bool := f.eventSet

/-- One call of `set_result` or `set_exception`. -/
inductive ResolveCall (α : Type) where
  | setResult (v : α)
  | setException (e : HzError)
deriving Repr, DecidableEq

/-- Apply one resolution call to a future state. -/
def applyCall {α : Type} (f : FutureState α) : ResolveCall α → FutureState α
  | .setResult v => f.set_result v
  | .setException e => f.set_exception e

/-- Apply a sequence of resolution calls in order. -/
def applyCalls {α : Type} (f : FutureState α) (cs : List (ResolveCall α)) :
    FutureState α :=
  cs.foldl applyCall f

end FutureState

/-- The continuation future built by `Future.continue_with`, observed after
the base future has completed and the registered callback has run.  The
callback invokes `continuation_func` exactly once, on the BASE FUTURE object
itself, and resolves the fresh continuation future with the returned value or
with the exception the function raised.  Returns the continuation future's
state together with the number of `continuation_func` invocations the
callback performed. -/
def continue_with_after {α β : Type} (base : FutureState α)
    (cf : FutureState α → Except HzError β) : FutureState β × Nat :=
  match cf base with
  | .ok v => (FutureState.init.set_result v, 1)
  | .error e => (FutureState.init.set_exception e, 1)

/-! ## Invocation -/

/-- Constants `INVOCATION_TIMEOUT` and `RETRY_WAIT_TIME_IN_SECONDS`. -/
def INVOCATION_TIMEOUT : Nat := 120

def RETRY_WAIT_TIME_IN_SECONDS : Nat := 1

/-- The per-invocation deadline timer handle returned by
`reactor.add_timer_absolute`; `cancel()` flips `cancelled`, the handle stays
attached to the invocation (`self.timer` is never reset to `None`). -/
structure Timer where
  deadline : Nat
  cancelled : Bool
deriving Repr, DecidableEq

/-- One logical request in flight: the outbound message, routing fields,
absolute deadline (`timeout + time.time()` at construction), optional event
handler (raising modelled by `Except`), the result future, and the timer
handle (initially `None`). -/
structure Invocation where
  request : Message
  partition_id : Int
  address : Option Addr
  connection : Option Conn
  event_handler : Option (Message → Except HzError Unit)
  timeout : Nat
  future : FutureState Message
  timer : Option Timer

namespace Invocation

/-- The `Invocation.__init__` constructor: the stored deadline is the relative
timeout plus the current time; the future is fresh and no timer is armed. -/
def create (request : Message) (partition_id : Int) (address : Option Addr)
    (connection : Option Conn)
    (event_handler : Option (Message → Except HzError Unit))
    (timeout : Nat) (now : Nat) : Invocation :=
  { request := request, partition_id := partition_id, address := address
    connection := connection, event_handler := event_handler
    timeout := timeout + now, future := FutureState.init, timer := none }

def has_connection (inv : Invocation) : Bool := inv.connection.isSome

def has_event_handler (inv : Invocation) : Bool := inv.event_handler.isSome

def has_partition_id (inv : Invocation) : Bool := inv.partition_id ≥ 0

def has_address (inv : Invocation) : Bool := inv.address.isSome

/-- `Invocation.set_response`: cancel the timer if one is armed (the handle
stays attached), then resolve the future with the response message. -/
def set_response (inv : Invocation) (response : Message) : Invocation :=
  { inv with timer := inv.timer.map (fun t => { t with cancelled := true })
             future := inv.future.set_result response }

/-- `Invocation.set_exception`: cancel the timer if one is armed (the handle
stays attached), then resolve the future with the exception. -/
def set_exception (inv : Invocation) (e : HzError) : Invocation :=
  { inv with timer := inv.timer.map (fun t => { t with cancelled := true })
             future := inv.future.set_exception e }

/-- `Invocation.on_timeout`, run when the deadline timer fires. -/
def on_timeout (inv : Invocation) : Invocation :=
  inv.set_exception
    (.timeoutError "Request timed out after 120 seconds.")

end Invocation

/-! ## Association lists for the pending / listeners dicts -/

/-- Entry list of a Python dict keyed by correlation id. -/
abbrev InvMap := List (Nat × Invocation)

/-- Dict assignment `d[k] = v`: replace the binding if the key is present,
else append. -/
def insertKey (l : InvMap) (k : Nat) (v : Invocation) : InvMap :=
  match l with
  | [] => [(k, v)]
  | (k₁, v₁) :: t => if k₁ = k then (k, v) :: t else (k₁, v₁) :: insertKey t k v

/-- Dict removal `d.pop(k)` (the removed value is read before the pop). -/
def eraseKey (l : InvMap) (k : Nat) : InvMap :=
  l.filter (fun p => p.1 ≠ k)

/-- Dict lookup `d[k]` / membership `k in d`. -/
def lookupKey (l : InvMap) (k : Nat) : Option Invocation :=
  match l with
  | [] => none
  | (k₁, v₁) :: t => if k₁ = k then some v₁ else lookupKey t k

/-! ## InvocationService -/

/-- External collaborators consulted by routing:
`partition_service.get_partition_owner`, `load_balancer.next_address`, and
`connection_manager.get_or_connect`. -/
structure Env where
  partitionOwner : Int → Addr
  nextAddress : Addr
  getOrConnect : Addr → Conn

/-- Where `_invoke` hands the invocation: directly to the bound connection,
or to `_send_to_address` with a chosen address. -/
inductive Route where
  | onConnection (c : Conn)
  | toAddress (a : Addr)
deriving Repr, DecidableEq

/-- The routing decision of `InvocationService._invoke`, applied on the first
send and again on every retry (`try_retry` reschedules `_invoke` itself):
bound connection first, then partition owner, then explicit address, then the
load balancer. -/
def invokeRoute (env : Env) (inv : Invocation) : Route :=
  if inv.has_connection then
    .onConnection (inv.connection.getD 0)
  else if inv.has_partition_id then
    .toAddress (env.partitionOwner inv.partition_id)
  else if inv.has_address then
    .toAddress (inv.address.getD 0)
  else
    .toAddress env.nextAddress

/-- Mutable state of the service: the `pending` and `listeners` dicts and the
correlation-id counter.  Modelled from the spec: the counter
(`hazelcast.util.AtomicInteger`, not under src/) is monotonically increasing
with start value 1, so `next_correlation_id` is the id the next send
allocates. -/
structure ServiceState where
  pending : InvMap
  listeners : InvMap
  next_correlation_id : Nat

/-- `InvocationService.__init__`: empty registries, counter at 1. -/
def ServiceState.start : ServiceState :=
  { pending := [], listeners := [], next_correlation_id := 1 }

/-- One observable step of `_send`, in source order: registry insertion,
timer arming, listener registration, handing the message to the connection. -/
inductive SendAction where
  | registerPending (cid : Nat)
  | armTimer (deadline : Nat)
  | registerListener (cid : Nat)
  | sendMessage (c : Conn) (cid : Nat)
deriving Repr, DecidableEq

/-- Result of `_send`: the updated registries and counter, the invocation as
it now stands (request stamped, timer armed), and the ordered action trace. -/
structure SendResult where
  state : ServiceState
  invocation : Invocation
  trace : List SendAction

/-- `InvocationService._send`: allocate a correlation id, stamp the request
with it and with the partition id, insert into `pending`, arm the absolute
deadline timer only if none is armed yet, insert into `listeners` when an
event handler is present, then hand the message to the connection.  The
dict entries alias the invocation object, so the stored invocation carries
the stamped request and the armed timer. -/
def sendStep (s : ServiceState) (inv : Invocation) (connection : Conn) :
    SendResult :=
  let cid := s.next_correlation_id
  let msg := { inv.request with correlation_id := cid
                                partition_id := inv.partition_id }
  let timerWasArmed := inv.timer.isSome
  let inv₁ : Invocation :=
    { inv with request := msg
               timer := match inv.timer with
                 | none => some { deadline := inv.timeout, cancelled := false }
                 | some t => some t }
  { state := { pending := insertKey s.pending cid inv₁
               listeners := if inv₁.has_event_handler
                 then insertKey s.listeners cid inv₁ else s.listeners
               next_correlation_id := cid + 1 }
    invocation := inv₁
    trace := SendAction.registerPending cid ::
      ((if timerWasArmed then [] else [SendAction.armTimer inv.timeout]) ++
       (if inv₁.has_event_handler then [SendAction.registerListener cid] else []) ++
       [SendAction.sendMessage connection cid]) }

/-- `InvocationService.handle_event`: invoke the registered handler with the
message; a raising handler is caught and logged (`logger.warn`), nothing else
changes.  Returns how many times the handler body ran and whether it raised
(an absent handler would raise `TypeError`, equally caught). -/
def handle_event (inv : Invocation) (m : Message) : Nat × Bool :=
  match inv.event_handler with
  | some h =>
    match h m with
    | .ok _ => (1, false)
    | .error _ => (1, true)
  | none => (1, true)

/-- `InvocationService.try_retry`: refuse when the invocation carries a bound
connection or its absolute deadline lies strictly in the past; otherwise
schedule `_invoke` to run after `RETRY_WAIT_TIME_IN_SECONDS` and report
success. -/
def try_retry (inv : Invocation) (now : Nat) : Bool :=
  if inv.connection.isSome then false
  else if inv.timeout < now then false
  else true

/-- `InvocationService.handle_exception`: transport / instance-inactive
failures attempt a retry at once; catalog-retryable errors attempt one only
when the request is marked retryable or the service-wide redo flag is on;
every path that does not retry resolves the invocation's future with the
error as given.  Returns the invocation (future resolved unless retried) and
whether a retry was scheduled. -/
def handle_exception (redo : Bool) (inv : Invocation) (now : Nat)
    (error : HzError) : Invocation × Bool :=
  if isTransportError error && try_retry inv now then
    (inv, true)
  else if is_retryable_error error && (inv.request.is_retryable || redo)
      && try_retry inv now then
    (inv, true)
  else
    (inv.set_exception error, false)

/-- What one incoming message did, beyond the state change. -/
inductive Effect where
  | droppedEvent
  | eventDelivered (cid : Nat) (handlerCalls : Nat) (handlerRaised : Bool)
  | droppedResponse
  | resolvedValue (inv : Invocation)
  | excOutcome (inv : Invocation) (retried : Bool)

/-- `InvocationService.handle_client_message`: event-flagged messages are
looked up in `listeners` (unknown id: logged and discarded; known id: handler
invoked, registration kept); other messages pop their id from `pending`
(unknown id: logged and discarded), then either route a decoded remote
exception through `handle_exception` or resolve the future with the
message. -/
def handle_client_message (redo : Bool) (s : ServiceState) (m : Message)
    (now : Nat) : ServiceState × Effect :=
  let cid := m.correlation_id
  if m.is_event then
    match lookupKey s.listeners cid with
    | none => (s, .droppedEvent)
    | some inv =>
      let hr := handle_event inv m
      (s, .eventDelivered cid hr.1 hr.2)
  else
    match lookupKey s.pending cid with
    | none => (s, .droppedResponse)
    | some inv =>
      let s₁ : ServiceState := { s with pending := eraseKey s.pending cid }
      if m.message_type = EXCEPTION_MESSAGE_TYPE then
        let out := handle_exception redo inv now (create_exception m)
        (s₁, .excOutcome out.1 out.2)
      else
        (s₁, .resolvedValue (inv.set_response m))

/-- The connection-closed error `connection_closed` resolves futures with. -/
def connClosedError : HzError := .ioError "Connection to server was closed."

/-- The per-entry action of the first `connection_closed` loop: an invocation
bound to the closed connection has its future resolved with the
connection-closed error; any other entry is left alone. -/
def failIfBound (connection : Conn) (p : Nat × Invocation) : Nat × Invocation :=
  if p.2.connection = some connection
  then (p.1, p.2.set_exception connClosedError) else p

/-- The per-entry test of the second `connection_closed` loop: keep a
listener entry exactly when it is not bound to the closed connection. -/
def keepListener (connection : Conn) (p : Nat × Invocation) : Bool :=
  p.2.connection != some connection

/-- `InvocationService.connection_closed`: every pending invocation bound to
the closed connection has its future resolved with a connection-closed error
(the entry itself stays in `pending`); every listener invocation bound to it
is removed from `listeners` without touching its future. -/
def connection_closed (s : ServiceState) (connection : Conn) : ServiceState :=
  { s with
    pending := s.pending.map (failIfBound connection)
    listeners := s.listeners.filter (keepListener connection) }

/-- `invoke_on_connection`: a connection-bound invocation. -/
def invoke_on_connection (m : Message) (c : Conn)
    (h : Option (Message → Except HzError Unit)) (now : Nat) : Invocation :=
  Invocation.create m (-1) none (some c) h INVOCATION_TIMEOUT now

/-- `invoke_on_partition`: a partition-routed invocation. -/
def invoke_on_partition (m : Message) (pid : Int)
    (h : Option (Message → Except HzError Unit)) (now : Nat) : Invocation :=
  Invocation.create m pid none none h INVOCATION_TIMEOUT now

/-- `invoke_on_random_target`: no routing fields set. -/
def invoke_on_random_target (m : Message)
    (h : Option (Message → Except HzError Unit)) (now : Nat) : Invocation :=
  Invocation.create m (-1) none none h INVOCATION_TIMEOUT now

/-- `invoke_on_target`: an address-routed invocation. -/
def invoke_on_target (m : Message) (a : Addr)
    (h : Option (Message → Except HzError Unit)) (now : Nat) : Invocation :=
  Invocation.create m (-1) (some a) none h INVOCATION_TIMEOUT now

/-! ## Concrete sample values for the scenario instantiations -/

/-- Sample request message. -/
def sampleMsg : Message :=
  { correlation_id := 0, partition_id := -1, is_event := false
    message_type := 0, encoded_error := .instanceNotActive
    is_retryable := false }

/-- Sample plain invocation: no routing fields, deadline 120 from time 0. -/
def sampleInv : Invocation :=
  Invocation.create sampleMsg (-1) none none none 120 0

/-- Sample invocation whose absolute deadline (5) is already past at time 10. -/
def sampleExpiredInv : Invocation :=
  Invocation.create sampleMsg (-1) none none none 5 0

/-- Sample invocation with every routing field set: bound connection 7,
partition id 3, explicit address 9. -/
def sampleBoundInv : Invocation :=
  Invocation.create sampleMsg 3 (some 9) (some 7) none 120 0

/-- Sample plain invocation bound to connection 2. -/
def samplePlainBound : Invocation :=
  Invocation.create sampleMsg (-1) none (some 2) none 120 0

/-- Sample event handler that always raises. -/
def sampleRaisingHandler : Message → Except HzError Unit :=
  fun _ => .error .instanceNotActive

/-- Sample listener invocation bound to connection 2 whose handler raises. -/
def sampleListenerInv : Invocation :=
  Invocation.create sampleMsg (-1) none (some 2) (some sampleRaisingHandler)
    120 0

/-- Sample routing environment. -/
def sampleEnv : Env :=
  { partitionOwner := fun _ => 100, nextAddress := 55
    getOrConnect := fun a => a + 1000 }

/-- Sample inbound response message with correlation id 1. -/
def sampleResponse : Message := { sampleMsg with correlation_id := 1 }

/-- Sample inbound event-flagged message with correlation id 1. -/
def sampleEventMsg : Message :=
  { sampleMsg with correlation_id := 1, is_event := true }

/-- Sample service state with one plain pending invocation under id 1. -/
def samplePendingState : ServiceState :=
  { pending := [(1, sampleInv)], listeners := [], next_correlation_id := 2 }

/-- Sample service state with one listener invocation under id 1. -/
def sampleListenerState : ServiceState :=
  { pending := [], listeners := [(1, sampleListenerInv)]
    next_correlation_id := 2 }

/-- Sample service state for teardown: a plain invocation bound to
connection 2 pending under id 1, and a listener invocation bound to
connection 2 registered under id 2. -/
def sampleTeardownState : ServiceState :=
  { pending := [(1, samplePlainBound)]
    listeners := [(2, sampleListenerInv)], next_correlation_id := 3 }

/-! ## Dictionary lemmas -/

theorem lookupKey_insertKey_self (l : InvMap) (k : Nat) (v : Invocation) :
    lookupKey (insertKey l k v) k = some v := by
  induction l with
  | nil => simp [insertKey, lookupKey]
  | cons p t ih =>
    obtain ⟨k₁, v₁⟩ := p
    by_cases h : k₁ = k <;> simp [insertKey, lookupKey, h, ih]

theorem lookupKey_eraseKey_self (l : InvMap) (k : Nat) :
    lookupKey (eraseKey l k) k = none := by
  induction l with
  | nil => simp [eraseKey, lookupKey]
  | cons p t ih =>
    obtain ⟨k₁, v₁⟩ := p
    by_cases h : k₁ = k <;> simp [eraseKey, lookupKey, h] at ih ⊢ <;>
      simpa [eraseKey] using ih

theorem lookupKey_eq_none_of_not_mem (l : InvMap) (k : Nat)
    (h : k ∉ l.map Prod.fst) : lookupKey l k = none := by
  induction l with
  | nil => simp [lookupKey]
  | cons p t ih =>
    obtain ⟨k₁, v₁⟩ := p
    simp only [List.map_cons, List.mem_cons, not_or] at h
    have hne : ¬ k₁ = k := fun hk => h.1 hk.symm
    simp [lookupKey, hne, ih h.2]

theorem fst_failIfBound (c : Conn) (p : Nat × Invocation) :
    (failIfBound c p).1 = p.1 := by
  unfold failIfBound
  split <;> rfl

theorem failIfBound_pair (c : Conn) (k : Nat) (v : Invocation) :
    failIfBound c (k, v) =
      (k, if v.connection = some c then v.set_exception connClosedError
          else v) := by
  unfold failIfBound
  split <;> simp_all

theorem lookupKey_closePending (l : InvMap) (c : Conn) (k : Nat) :
    lookupKey (l.map (failIfBound c)) k
      = (lookupKey l k).map (fun v => if v.connection = some c
        then v.set_exception connClosedError else v) := by
  induction l with
  | nil => simp [lookupKey]
  | cons p t ih =>
    obtain ⟨k₁, v₁⟩ := p
    rw [List.map_cons, failIfBound_pair]
    by_cases hk : k₁ = k <;> simp [lookupKey, hk, ih]

theorem lookupKey_filter_of_nodup (l : InvMap) (q : Nat × Invocation → Bool)
    (k : Nat) (v : Invocation) (hnd : (l.map Prod.fst).Nodup)
    (hlk : lookupKey l k = some v) :
    lookupKey (l.filter q) k = if q (k, v) then some v else none := by
  induction l with
  | nil => simp [lookupKey] at hlk
  | cons p t ih =>
    obtain ⟨k₁, v₁⟩ := p
    simp only [List.map_cons, List.nodup_cons] at hnd
    by_cases hk : k₁ = k
    · subst hk
      rw [show lookupKey ((k₁, v₁) :: t) k₁ = some v₁ by
            simp [lookupKey]] at hlk
      obtain rfl : v₁ = v := Option.some.inj hlk
      have hnone : lookupKey (t.filter q) k₁ = none := by
        refine lookupKey_eq_none_of_not_mem _ _ (fun hmem => hnd.1 ?_)
        exact ((List.filter_sublist t).map Prod.fst).subset hmem
      by_cases hq : q (k₁, v₁) = true
      · simp [List.filter_cons, hq, lookupKey]
      · simp [List.filter_cons, hq, hnone]
    · rw [show lookupKey ((k₁, v₁) :: t) k = lookupKey t k by
            simp [lookupKey, hk]] at hlk
      have hrec := ih hnd.2 hlk
      by_cases hq : q (k₁, v₁) = true <;>
        simp [List.filter_cons, hq, lookupKey, hk, hrec]

theorem handle_event_calls_once (inv : Invocation) (m : Message) :
    (handle_event inv m).1 = 1 := by
  cases hev : inv.event_handler with
  | none => simp [handle_event, hev]
  | some h => cases hm : h m <;> simp [handle_event, hev, hm]

/-! ## Claims -/

/-- C1: the claim requires first-caller-wins single resolution of a Future,
but the source `set_result` stores unconditionally, with no resolution guard.
Evaluating the code on the call sequence `set_result 1; set_result 2` shows
the second call overwrites the first: `result()` returns 2 and not the first
call's 1. -/
theorem C1_future_lacks_single_resolution :
    FutureState.resultOf
        (FutureState.applyCalls (FutureState.init : FutureState Nat)
          [.setResult 1, .setResult 2])
      = .ok (some 2) ∧ (2 : Nat) ≠ 1 :=
  ⟨rfl, by decide⟩

/-- C2 counterexample: a transport failure on a non-connection-bound
invocation whose deadline (5) already passed at time 10 is not retried, and
the future is resolved with the ORIGINAL transport error — which is not a
timeout error, contradicting the claim's "terminal timeout error". -/
theorem C2_counterexample :
    handle_exception false sampleExpiredInv 10
        (HzError.ioError "connection reset")
      = (sampleExpiredInv.set_exception (HzError.ioError "connection reset"),
         false) ∧
    (sampleExpiredInv.set_exception
        (HzError.ioError "connection reset")).future.exc
      = some (HzError.ioError "connection reset") ∧
    isTimeoutError (HzError.ioError "connection reset") = false :=
  ⟨rfl, rfl, rfl⟩

/-- C2 (amended): `try_retry` refuses exactly when the invocation is bound to
a connection or its absolute deadline lies strictly in the past; a transport
failure on a non-connection-bound invocation with the deadline not yet passed
is retried, while the same failure with the deadline already passed resolves
the future with that same transport error as a terminal failure (no retry). -/
theorem C2_retry_refusal (redo : Bool) (inv : Invocation) (now : Nat)
    (e : HzError) (htr : isTransportError e = true) :
    (try_retry inv now = false ↔ inv.connection ≠ none ∨ inv.timeout < now) ∧
    (inv.connection = none → ¬ inv.timeout < now →
      handle_exception redo inv now e = (inv, true)) ∧
    (inv.connection = none → inv.timeout < now →
      handle_exception redo inv now e = (inv.set_exception e, false)) := by
  refine ⟨?_, ?_, ?_⟩
  · rcases hc : inv.connection with _ | c <;>
      by_cases ht : inv.timeout < now <;> simp [try_retry, hc, ht]
  · intro hc ht
    have hr : try_retry inv now = true := by simp [try_retry, hc, ht]
    simp [handle_exception, htr, hr]
  · intro hc ht
    have hr : try_retry inv now = false := by simp [try_retry, hc, ht]
    simp [handle_exception, hr]

/-- C2 witness: a transport failure at time 0, deadline 120, no bound
connection: the invocation is retried. -/
theorem C2_retry_refusal_witness :
    handle_exception false sampleInv 0 (HzError.ioError "x")
      = (sampleInv, true) :=
  (C2_retry_refusal false sampleInv 0 (HzError.ioError "x") rfl).2.1 rfl
    (by decide)

/-- C3: routing priority of `_invoke`, which runs on the first send and again
on every retry: a bound connection is used unconditionally (ignoring any
partition id or address also set), else a partition id ≥ 0 is resolved to the
partition owner's address, else an explicit address is used, else the load
balancer supplies the target address. -/
theorem C3_routing_priority (env : Env) (inv : Invocation) :
    (∀ c, inv.connection = some c → invokeRoute env inv = .onConnection c) ∧
    (inv.connection = none → 0 ≤ inv.partition_id →
      invokeRoute env inv
        = .toAddress (env.partitionOwner inv.partition_id)) ∧
    (inv.connection = none → inv.partition_id < 0 →
      ∀ a, inv.address = some a → invokeRoute env inv = .toAddress a) ∧
    (inv.connection = none → inv.partition_id < 0 → inv.address = none →
      invokeRoute env inv = .toAddress env.nextAddress) := by
  refine ⟨?_, ?_, ?_, ?_⟩
  · intro c hc
    simp [invokeRoute, Invocation.has_connection, hc]
  · intro hc hp
    simp [invokeRoute, Invocation.has_connection, Invocation.has_partition_id,
      hc, hp]
  · intro hc hp a ha
    simp [invokeRoute, Invocation.has_connection, Invocation.has_partition_id,
      Invocation.has_address, hc, not_le.mpr hp, ha]
  · intro hc hp ha
    simp [invokeRoute, Invocation.has_connection, Invocation.has_partition_id,
      Invocation.has_address, hc, not_le.mpr hp, ha]

/-- C3 witness: an invocation carrying a bound connection 7, a partition id 3
and an explicit address 9 is sent on connection 7. -/
theorem C3_routing_priority_witness :
    invokeRoute sampleEnv sampleBoundInv = Route.onConnection 7 :=
  (C3_routing_priority sampleEnv sampleBoundInv).1 7 rfl

/-- C4 counterexample: the base future is resolved with an error, yet the
continuation function IS invoked (the callback calls it unconditionally, on
the base future object), and the continuation future resolves with the
function's value 42 rather than with the base error. -/
theorem C4_counterexample :
    continue_with_after
        ((FutureState.init : FutureState Nat).set_exception .instanceNotActive)
        (fun _ => (Except.ok 42 : Except HzError Nat))
      = (FutureState.init.set_result 42, 1) ∧
    (FutureState.init.set_result (42 : Nat)).exc = none :=
  ⟨rfl, rfl⟩

/-- C4 (amended): when the base future completes — with a value or with an
error — the callback registered by `continue_with` invokes the continuation
function exactly once, with the base future itself as argument; the
continuation future resolves with the function's return value, or with the
exception it raises; in particular, a continuation function that reads
`result()` re-raises a base error, so the continuation then resolves with
that same error. -/
theorem C4_continue_with (α β : Type) (base : FutureState α)
    (cf : FutureState α → Except HzError β) :
    (continue_with_after base cf).2 = 1 ∧
    (∀ v, cf base = .ok v →
      (continue_with_after base cf).1 = FutureState.init.set_result v) ∧
    (∀ e, cf base = .error e →
      (continue_with_after base cf).1 = FutureState.init.set_exception e) ∧
    (∀ e (g : Option α → β), base.exc = some e →
      (continue_with_after base (fun fut => (fut.resultOf).map g)).1
        = FutureState.init.set_exception e) := by
  refine ⟨?_, ?_, ?_, ?_⟩
  · cases h : cf base <;> simp [continue_with_after, h]
  · intro v hv
    simp [continue_with_after, hv]
  · intro e he
    simp [continue_with_after, he]
  · intro e g he
    simp [continue_with_after, FutureState.resultOf, he, Except.map]

/-- C4 witness: base future resolved with value 5, continuation function
reads the stored value and returns it plus one: the continuation future
resolves with 6. -/
theorem C4_continue_with_witness :
    (continue_with_after ((FutureState.init : FutureState Nat).set_result 5)
        (fun fut => (Except.ok (fut.res.getD 0 + 1) : Except HzError Nat))).1
      = FutureState.init.set_result 6 :=
  (C4_continue_with Nat Nat ((FutureState.init : FutureState Nat).set_result 5)
    (fun fut => (Except.ok (fut.res.getD 0 + 1) : Except HzError Nat))).2.1
    6 rfl

/-- C5: for an error that is not a transport/instance-inactive failure but is
marked retryable by the protocol's error catalog, `handle_exception` retries
exactly when the request is marked retryable by the caller or the service is
configured to redo operations, and `try_retry` grants the retry; with redo
disabled and a non-retryable-marked request the future resolves with that
error as a terminal failure. -/
theorem C5_retryable_classification (redo : Bool) (inv : Invocation)
    (now : Nat) (e : HzError) (h₁ : isTransportError e = false)
    (h₂ : is_retryable_error e = true) :
    handle_exception redo inv now e
      = (if (inv.request.is_retryable || redo) && try_retry inv now
         then (inv, true) else (inv.set_exception e, false)) ∧
    (inv.request.is_retryable = false → redo = false →
      handle_exception redo inv now e = (inv.set_exception e, false)) := by
  constructor
  · simp [handle_exception, h₁, h₂]
  · intro hreq hredo
    simp [handle_exception, h₁, h₂, hreq, hredo]

/-- C5 witness: a catalog-retryable remote error on a request not marked
retryable, with redo disabled, resolves terminally with that error. -/
theorem C5_retryable_classification_witness :
    handle_exception false sampleInv 0 (HzError.remote true 3)
      = (sampleInv.set_exception (HzError.remote true 3), false) :=
  (C5_retryable_classification false sampleInv 0 (HzError.remote true 3)
    rfl rfl).2 rfl rfl

/-- C6: a non-event message whose correlation id is not in `pending`, and an
event-flagged message whose correlation id is not in `listeners`, are logged
and discarded with the state untouched; and a normal response pops its id
from `pending`, so a second non-event message with the same correlation id is
afterwards dropped without re-resolution. -/
theorem C6_unknown_ids_dropped (redo : Bool) (s : ServiceState) (m : Message)
    (now : Nat) :
    (m.is_event = true → lookupKey s.listeners m.correlation_id = none →
      handle_client_message redo s m now = (s, .droppedEvent)) ∧
    (m.is_event = false → lookupKey s.pending m.correlation_id = none →
      handle_client_message redo s m now = (s, .droppedResponse)) ∧
    (∀ inv, m.is_event = false → m.message_type ≠ EXCEPTION_MESSAGE_TYPE →
      lookupKey s.pending m.correlation_id = some inv →
      handle_client_message redo s m now
        = ({ s with pending := eraseKey s.pending m.correlation_id },
           .resolvedValue (inv.set_response m)) ∧
      ∀ m₂ now₂, m₂.is_event = false →
        m₂.correlation_id = m.correlation_id →
        handle_client_message redo
            { s with pending := eraseKey s.pending m.correlation_id } m₂ now₂
          = ({ s with pending := eraseKey s.pending m.correlation_id },
             .droppedResponse)) := by
  refine ⟨?_, ?_, ?_⟩
  · intro hev hlk
    simp [handle_client_message, hev, hlk]
  · intro hev hlk
    simp [handle_client_message, hev, hlk]
  · intro inv hev hty hlk
    constructor
    · simp [handle_client_message, hev, hlk, hty]
    · intro m₂ now₂ hev₂ hcid₂
      simp [handle_client_message, hev₂, hcid₂, lookupKey_eraseKey_self]

/-- C6 witness: a response with correlation id 1 resolves the pending
invocation's future with the message; a second message with correlation id 1
is then dropped with the state untouched. -/
theorem C6_unknown_ids_dropped_witness :
    handle_client_message false samplePendingState sampleResponse 0
      = ({ samplePendingState with
            pending := eraseKey samplePendingState.pending 1 },
         .resolvedValue (sampleInv.set_response sampleResponse)) ∧
    handle_client_message false
        { samplePendingState with
            pending := eraseKey samplePendingState.pending 1 }
        sampleResponse 5
      = ({ samplePendingState with
            pending := eraseKey samplePendingState.pending 1 },
         .droppedResponse) := by
  have h := (C6_unknown_ids_dropped false samplePendingState sampleResponse
    0).2.2 sampleInv rfl (by decide) rfl
  exact ⟨h.1, h.2 sampleResponse 5 rfl rfl⟩

/-- C7: `_send` registers the invocation in `pending` (and in `listeners`
when it has an event handler) before handing the message to the connection —
the send action is the last trace action, the registrations occur before it —
and a deadline timer is armed only when none is armed yet, the armed deadline
being the invocation's original absolute deadline; an already-armed timer is
kept untouched, so retries reuse the original deadline. -/
theorem C7_send_registration_order (s : ServiceState) (inv : Invocation)
    (c : Conn) :
    lookupKey (sendStep s inv c).state.pending s.next_correlation_id
      = some (sendStep s inv c).invocation ∧
    (inv.has_event_handler = true →
      lookupKey (sendStep s inv c).state.listeners s.next_correlation_id
        = some (sendStep s inv c).invocation) ∧
    (sendStep s inv c).trace.head?
      = some (.registerPending s.next_correlation_id) ∧
    (sendStep s inv c).trace.getLast?
      = some (.sendMessage c s.next_correlation_id) ∧
    SendAction.registerPending s.next_correlation_id
      ∈ (sendStep s inv c).trace.dropLast ∧
    (inv.has_event_handler = true →
      SendAction.registerListener s.next_correlation_id
        ∈ (sendStep s inv c).trace.dropLast) ∧
    (inv.timer = none →
      (sendStep s inv c).invocation.timer
        = some { deadline := inv.timeout, cancelled := false } ∧
      SendAction.armTimer inv.timeout ∈ (sendStep s inv c).trace) ∧
    (∀ t, inv.timer = some t →
      (sendStep s inv c).invocation.timer = some t ∧
      ∀ d, SendAction.armTimer d ∉ (sendStep s inv c).trace) := by
  rcases htm : inv.timer with _ | t₀ <;>
    rcases hh : inv.event_handler with _ | h₀ <;>
      simp [sendStep, Invocation.has_event_handler, htm, hh,
        lookupKey_insertKey_self, List.getLast?, List.dropLast]

/-- C7 witness: sending a fresh invocation (no timer armed) registers it in
`pending` under the allocated id and arms the deadline timer at the
invocation's absolute deadline. -/
theorem C7_send_registration_order_witness :
    lookupKey (sendStep ServiceState.start sampleInv 4).state.pending
        ServiceState.start.next_correlation_id
      = some (sendStep ServiceState.start sampleInv 4).invocation ∧
    (sendStep ServiceState.start sampleInv 4).invocation.timer
      = some { deadline := sampleInv.timeout, cancelled := false } ∧
    SendAction.armTimer sampleInv.timeout
      ∈ (sendStep ServiceState.start sampleInv 4).trace := by
  have h := C7_send_registration_order ServiceState.start sampleInv 4
  exact ⟨h.1, (h.2.2.2.2.2.2.1 rfl).1, (h.2.2.2.2.2.2.1 rfl).2⟩

/-- C8: an event-flagged message whose correlation id is registered in
`listeners` invokes the handler exactly once and leaves the whole service
state — the listeners registration included, the stored invocation's future
unresolved — unchanged; this holds equally when the handler raises (the
exception is caught and logged). -/
theorem C8_event_keeps_registration (redo : Bool) (s : ServiceState)
    (m : Message) (now : Nat) (inv : Invocation) (hev : m.is_event = true)
    (hlk : lookupKey s.listeners m.correlation_id = some inv) :
    handle_client_message redo s m now
      = (s, .eventDelivered m.correlation_id 1 (handle_event inv m).2) ∧
    (handle_event inv m).1 = 1 ∧
    lookupKey (handle_client_message redo s m now).1.listeners
        m.correlation_id = some inv := by
  have hc := handle_event_calls_once inv m
  refine ⟨?_, hc, ?_⟩
  · simp [handle_client_message, hev, hlk, hc]
  · simp [handle_client_message, hev, hlk]

/-- C8 witness: an event message for the registered (raising) handler is
delivered once, the handler's exception is swallowed, and the listener
registration survives untouched. -/
theorem C8_event_keeps_registration_witness :
    handle_client_message false sampleListenerState sampleEventMsg 0
      = (sampleListenerState, .eventDelivered 1 1 true) ∧
    lookupKey (handle_client_message false sampleListenerState sampleEventMsg
        0).1.listeners 1 = some sampleListenerInv := by
  have h := C8_event_keeps_registration false sampleListenerState
    sampleEventMsg 0 sampleListenerInv rfl rfl
  exact ⟨h.1, h.2.2⟩

/-- C9: `connection_closed` resolves the future of every pending invocation
bound to the closed connection with the connection-closed error (the entry
itself staying in `pending`), removes every listener invocation bound to the
closed connection from `listeners` without resolving anything, and keeps
every other listener registration — with its untouched invocation — as it
was. -/
theorem C9_connection_closed_effects (s : ServiceState) (c : Conn) (cid : Nat)
    (inv : Invocation) :
    (lookupKey s.pending cid = some inv → inv.connection = some c →
      lookupKey (connection_closed s c).pending cid
        = some (inv.set_exception connClosedError) ∧
      (inv.set_exception connClosedError).future.exc
        = some connClosedError) ∧
    ((s.listeners.map Prod.fst).Nodup →
      lookupKey s.listeners cid = some inv → inv.connection = some c →
      lookupKey (connection_closed s c).listeners cid = none) ∧
    ((s.listeners.map Prod.fst).Nodup →
      lookupKey s.listeners cid = some inv → inv.connection ≠ some c →
      lookupKey (connection_closed s c).listeners cid = some inv) := by
  refine ⟨?_, ?_, ?_⟩
  · intro hlk hconn
    refine ⟨?_, rfl⟩
    show lookupKey (s.pending.map (failIfBound c)) cid = _
    rw [lookupKey_closePending, hlk]
    simp [hconn]
  · intro hnd hlk hconn
    show lookupKey (s.listeners.filter (keepListener c)) cid = none
    rw [lookupKey_filter_of_nodup s.listeners (keepListener c) cid inv hnd
      hlk]
    simp [keepListener, hconn]
  · intro hnd hlk hconn
    show lookupKey (s.listeners.filter (keepListener c)) cid = some inv
    rw [lookupKey_filter_of_nodup s.listeners (keepListener c) cid inv hnd
      hlk]
    simp [keepListener, hconn]

/-- C9 witness: closing connection 2 with a plain invocation bound to it
pending under id 1 and a listener invocation bound to it under id 2: the
plain invocation's future resolves with the connection-closed error while its
entry survives, and the listener entry is removed. -/
theorem C9_connection_closed_effects_witness :
    lookupKey (connection_closed sampleTeardownState 2).pending 1
      = some (samplePlainBound.set_exception connClosedError) ∧
    (samplePlainBound.set_exception connClosedError).future.exc
      = some connClosedError ∧
    lookupKey (connection_closed sampleTeardownState 2).listeners 2
      = none := by
  have h₁ := (C9_connection_closed_effects sampleTeardownState 2 1
    samplePlainBound).1 rfl rfl
  have h₂ := (C9_connection_closed_effects sampleTeardownState 2 2
    sampleListenerInv).2.1 (by decide) rfl rfl
  exact ⟨h₁.1, h₁.2, h₂⟩

/-- C10: `connection_closed` never removes entries from the pending table:
afterwards the table has exactly the keys it had before, and a correlation id
maps to an invocation exactly when it did before — the failed invocations
stay registered, so only a later incoming message with that id can pop
them. -/
theorem C10_pending_entries_preserved (s : ServiceState) (c : Conn) :
    (connection_closed s c).pending.map Prod.fst
      = s.pending.map Prod.fst ∧
    ∀ cid, (lookupKey (connection_closed s c).pending cid).isSome
      = (lookupKey s.pending cid).isSome := by
  constructor
  · show (s.pending.map (failIfBound c)).map Prod.fst = _
    rw [List.map_map]
    exact List.map_congr_left (fun p _ => fst_failIfBound c p)
  · intro cid
    show (lookupKey (s.pending.map (failIfBound c)) cid).isSome = _
    rw [lookupKey_closePending]
    cases lookupKey s.pending cid <;> rfl

end Hazelcast
